import Mathlib

/-!
Shallow embedding of the murf-voice-agent repository (src/app.py and
src/voice_agent.py) for checking the natural-language specification.

External effects (the Gemini completion call, the Murf TTS HTTP calls, the
filesystem, audio playback, and the microphone) are modelled as explicit
outcome parameters and explicit state, so every definition is executable.
Python strings are modelled as Lean `String`; `str.lower`, `str.strip`,
`str.split`, and the `in` substring test are modelled charwise on `.data`.
-/

/-- Model of Python `lst[-n:]`: the last `n` elements of a list. -/
def lastN {α : Type} (n : Nat) (l : List α) : List α :=
  l.drop (l.length - n)

/-- Drop leading whitespace characters from a character list. -/
def dropLeadWs : List Char → List Char
  | [] => []
  | c :: cs => if c.isWhitespace then dropLeadWs cs else c :: cs

/-- Model of Python `str.strip()`: remove leading and trailing whitespace. -/
def pyStrip (s : String) : String :=
  ⟨dropLeadWs ((dropLeadWs s.data.reverse).reverse)⟩

/-- Model of Python `str.lower()`: lowercase every character. -/
def lowerStr (s : String) : String :=
  ⟨s.data.map Char.toLower⟩

/-- Whether `needle` occurs at the start of `hay` (character lists). -/
def listHasPre : List Char → List Char → Bool
  | [], _ => true
  | _ :: _, [] => false
  | c :: cs, d :: ds => c == d && listHasPre cs ds

/-- Whether `needle` occurs anywhere inside `hay` (character lists). -/
def listHasSub (needle : List Char) : List Char → Bool
  | [] => listHasPre needle []
  | d :: ds => listHasPre needle (d :: ds) || listHasSub needle ds

/-- Model of the Python substring test `needle in hay`. -/
def strIn (needle hay : String) : Bool :=
  listHasSub needle.data hay.data

/-- Accumulator-based splitter behind `wordCount`; mirrors Python
`str.split()` splitting on whitespace runs with no empty words. -/
def pyWordsAux : List Char → List Char → List (List Char)
  | cur, [] => if cur = [] then [] else [cur.reverse]
  | cur, c :: cs =>
    if c.isWhitespace then
      if cur = [] then pyWordsAux [] cs else cur.reverse :: pyWordsAux [] cs
    else pyWordsAux (c :: cur) cs

/-- Model of Python `len(s.split())`: the number of whitespace-separated words. -/
def wordCount (s : String) : Nat :=
  (pyWordsAux [] s.data).length

/-- Conversation message dictionary `{'role': ..., 'parts': [...]}` used by
both app.py and voice_agent.py when talking to Gemini. -/
structure Msg where
  role : String
  parts : List String
  deriving DecidableEq

/-- Model of `msg.get('parts', [''])[0] if msg.get('parts') else ''`. -/
def partsHead (m : Msg) : String :=
  m.parts.headD ""

/-- The five `default_responses` templates; the literal list is identical in
app.py (lines 151-157) and voice_agent.py (lines 417-423). -/
def defaultResponses (user_input : String) : List String :=
  ["I heard you say \x27" ++ user_input ++ "\x27. That\x27s fascinating! What made you think about that?",
   "\x27" ++ user_input ++ "\x27 - I love hearing about that! Can you tell me more?",
   "Thanks for sharing that with me! \x27" ++ user_input ++ "\x27 sounds really interesting.",
   "I appreciate you telling me about \x27" ++ user_input ++ "\x27. What\x27s your favorite part?",
   "That\x27s really cool! \x27" ++ user_input ++ "\x27 got me thinking. What\x27s next on your mind?"]

/-- Reply template for inputs containing a question mark; identical in both files. -/
def questionReply (user_input : String) : String :=
  "That\x27s a great question about \x27" ++ user_input ++
    "\x27. While I\x27m still learning, I\x27d love to hear your thoughts on it!"

/-- Reply for inputs longer than ten words; identical in both files. -/
def longReply : String :=
  "That sounds interesting! You have a lot to say about that topic. Tell me more!"

/-- Reply for a repeated question detected in the recent history; identical in both files. -/
def repeatReply : String :=
  "I see you\x27re asking the same question. Let me try a different approach - could you tell me more about what you\x27re looking for?"

namespace Config

/-- Config.MAX_HISTORY_LENGTH from voice_agent.py. -/
def MAX_HISTORY_LENGTH : Nat := 10

/-- Config.MAX_RETRIES from voice_agent.py. -/
def MAX_RETRIES : Nat := 3

/-- Config.RETRY_DELAY (seconds) from voice_agent.py. -/
def RETRY_DELAY : Nat := 2

end Config

namespace App

/-- Reply to hello/hi/hey in app.py. -/
def helloReply : String :=
  "Namaste! I\x27m Neha, your AI voice assistant in India. How can I help you today?"

/-- Reply to "how are you" in app.py. -/
def howReply : String :=
  "I\x27m doing great, thank you! It\x27s wonderful to connect with you from India. What\x27s on your mind?"

/-- Reply to name/who-are-you in app.py. -/
def nameReply : String :=
  "I\x27m Neha, your friendly AI voice assistant built for the Techfest IIT Bombay hackathon using Murf Falcon TTS!"

/-- Reply to help/what-can-you-do in app.py. -/
def helpReply : String :=
  "I can have natural conversations with you! I understand Indian culture and use Google\x27s Gemini AI for smart responses with Murf Falcon voice synthesis."

/-- Reply to thank/thanks in app.py. -/
def thankReply : String :=
  "You\x27re most welcome! Dhanyavaad! I\x27m here whenever you need to chat."

/-- Reply to bye/goodbye/see-you in app.py. -/
def byeReply : String :=
  "Goodbye! It was wonderful talking with you. Dhanyavaad and take care!"

/-- Model of `[msg.get('parts', [''])[0] for msg in conversation_history[-4:]
if msg.get('role') == 'user']` in VoiceAgentAPI._fallback_response. -/
def recentUserParts (conversation_history : List Msg) : List String :=
  ((lastN 4 conversation_history).filter (fun m => m.role = "user")).map partsHead

/-- VoiceAgentAPI._fallback_response (app.py lines 113-161).  The local
`user_input_lower` is inlined as `lowerStr user_input`. -/
def fallback_response (user_input : String) (conversation_history : List Msg) : String :=
  if ["hello", "hi", "hey"].any (fun w => strIn w (lowerStr user_input)) then
    helloReply
  else if strIn "how are you" (lowerStr user_input) then
    howReply
  else if ["name", "who are you"].any (fun w => strIn w (lowerStr user_input)) then
    nameReply
  else if ["help", "what can you do"].any (fun w => strIn w (lowerStr user_input)) then
    helpReply
  else if ["thank", "thanks"].any (fun w => strIn w (lowerStr user_input)) then
    thankReply
  else if ["bye", "goodbye", "see you"].any (fun w => strIn w (lowerStr user_input)) then
    byeReply
  else if 0 < conversation_history.length ∧
      (recentUserParts conversation_history).dedup.length = 1 ∧
      1 < (recentUserParts conversation_history).length then
    repeatReply
  else if strIn "?" user_input then
    questionReply user_input
  else if 10 < wordCount user_input then
    longReply
  else
    (defaultResponses user_input).getD
      (user_input.length % (defaultResponses user_input).length) ""

/-- The `system_prompt` literal of VoiceAgentAPI.generate_response. -/
def systemPrompt : String :=
  "You are Neha, a helpful and friendly AI voice assistant living in India for a hackathon project.\n            You should:\n            - Be warm, conversational, and culturally aware of Indian context.\n            - Use Indian English expressions and be familiar with Indian culture, festivals, and daily life.\n            - Be enthusiastic about Indian tech innovation, startups, and cultural diversity.\n            - If asked to tell a story or be creative, you should provide a longer, more detailed response.\n            - For normal questions, keep responses reasonably concise for a voice interface.\n            - Show a friendly, approachable personality with Indian warmth.\n            - Remember context from the conversation to avoid repetition.\n            - Be enthusiastic about helping users with their Indian lifestyle and tech needs.\n\n            You live in India and understand Indian culture, so you can reference Indian festivals, food, cities, and daily life naturally.\n            This is for a voice interface, so responses should sound natural when spoken in an Indian accent."

/-- One line of the conversation context: `User: ...\n` or `Assistant: ...\n`
(role defaulting to 'user' is total here since every Msg carries a role). -/
def renderMsg (m : Msg) : String :=
  if m.role = "user" then "User: " ++ partsHead m ++ "\n"
  else if m.role = "model" then "Assistant: " ++ partsHead m ++ "\n"
  else ""

/-- The `conversation_context` string built from the last 6 history messages
(app.py lines 79-90). -/
def conversationContext (conversation_history : List Msg) : String :=
  if 0 < conversation_history.length then
    String.join ((lastN 6 conversation_history).map renderMsg)
  else ""

/-- The `full_prompt` passed to `gemini_client.models.generate_content` (app.py line 93). -/
def full_prompt (user_input : String) (conversation_history : List Msg) : String :=
  systemPrompt ++ "\n\n" ++ conversationContext conversation_history ++
    "User: " ++ user_input ++ "\nAssistant:"

/-- VoiceAgentAPI.generate_response (app.py lines 58-111).  `hasClient`
models `self.gemini_client` being non-None; `remote` models the outcome of
the network call on the prompt it is given (`Except.error` is a raised
exception). -/
def generate_response (hasClient : Bool) (remote : String → Except Unit String)
    (user_input : String) (conversation_history : List Msg) : String :=
  if hasClient then
    match remote (full_prompt user_input conversation_history) with
    | Except.error _ => fallback_response user_input conversation_history
    | Except.ok t =>
      if pyStrip t = "" ∨ (pyStrip t).length < 5 then
        fallback_response user_input conversation_history
      else pyStrip t
  else fallback_response user_input conversation_history

/-- Dictionary read `conversations.get(session_id)` for the module-level
`conversations` dict, modelled as an association list. -/
def getConv : List (String × List Msg) → String → Option (List Msg)
  | [], _ => none
  | (k, v) :: rest, sid => if k = sid then some v else getConv rest sid

/-- Dictionary write `conversations[session_id] = v`. -/
def setConv : List (String × List Msg) → String → List Msg → List (String × List Msg)
  | [], sid, v => [(sid, v)]
  | (k, w) :: rest, sid, v =>
    if k = sid then (k, v) :: rest else (k, w) :: setConv rest sid v

/-- Result of the `/api/conversation` handler: either
`jsonify({'error': 'No message provided'}), 400` or the success payload
(speech generation does not touch `conversations` and is omitted from the
payload model). -/
inductive SendOutcome where
  | badRequest (error : String) (code : Nat)
  | success (user_message ai_response : String)
  deriving DecidableEq

/-- The `send_message` REST handler (app.py lines 207-250): strip the
message, 400 on empty, else create the session entry if missing, append the
user turn, generate, append the model turn. -/
def send_message (hasClient : Bool) (remote : String → Except Unit String)
    (message sessionId : Option String) (convs : List (String × List Msg)) :
    SendOutcome × List (String × List Msg) :=
  if pyStrip (message.getD "") = "" then
    (SendOutcome.badRequest "No message provided" 400, convs)
  else
    let user_message := pyStrip (message.getD "")
    let session_id := sessionId.getD "default"
    let h1 := (getConv convs session_id).getD [] ++ [⟨"user", [user_message]⟩]
    let ai := generate_response hasClient remote user_message h1
    (SendOutcome.success user_message ai, setConv convs session_id (h1 ++ [⟨"model", [ai]⟩]))

/-- Result of the WebSocket `send_message` event handler: an `error` emit or
a `message_response` emit. -/
inductive WsOutcome where
  | errorMsg (message : String)
  | messageResponse (user_message ai_response : String)
  deriving DecidableEq

/-- The WebSocket `handle_message` handler (app.py lines 279-321); identical
conversation logic to the REST handler, with `emit` instead of HTTP codes. -/
def handle_message (hasClient : Bool) (remote : String → Except Unit String)
    (message sessionId : Option String) (convs : List (String × List Msg)) :
    WsOutcome × List (String × List Msg) :=
  if pyStrip (message.getD "") = "" then
    (WsOutcome.errorMsg "No message provided", convs)
  else
    let user_message := pyStrip (message.getD "")
    let session_id := sessionId.getD "default"
    let h1 := (getConv convs session_id).getD [] ++ [⟨"user", [user_message]⟩]
    let ai := generate_response hasClient remote user_message h1
    (WsOutcome.messageResponse user_message ai, setConv convs session_id (h1 ++ [⟨"model", [ai]⟩]))

end App

namespace Agent

/-- Reply to hello/hi/hey in voice_agent.py. -/
def helloReply : String :=
  "Hello! I\x27m your AI voice assistant powered by Murf Falcon. How can I help you today?"

/-- Reply to "how are you" in voice_agent.py. -/
def howReply : String :=
  "I\x27m doing great! I\x27m excited to chat with you. What\x27s on your mind?"

/-- Reply to name/who-are-you in voice_agent.py. -/
def nameReply : String :=
  "I\x27m your friendly AI voice assistant, built for the Techfest hackathon using Murf Falcon TTS!"

/-- Reply to help/what-can-you-do in voice_agent.py. -/
def helpReply : String :=
  "I can have natural conversations with you! I use Google\x27s Gemini AI for smart responses and Murf Falcon for voice synthesis."

/-- Reply to thank/thanks in voice_agent.py. -/
def thankReply : String :=
  "You\x27re very welcome! I\x27m here whenever you need to chat."

/-- Reply to bye/goodbye/see-you in voice_agent.py. -/
def byeReply : String :=
  "Goodbye! It was great talking with you. Come back anytime!"

/-- Model of `msg.split(": ")[1] if ": " in msg else msg`. -/
def splitSecond (msg : String) : String :=
  if strIn ": " msg then (msg.splitOn ": ").getD 1 msg else msg

/-- Model of `[... for msg in self.conversation_history[-4:] if
msg.startswith("User:")]` in VoiceAgent._fallback_response. -/
def recentUserEntries (hist : List String) : List String :=
  ((lastN 4 hist).filter (fun m => m.startsWith "User:")).map splitSecond

/-- VoiceAgent._fallback_response (voice_agent.py lines 379-427); the CLI
history is a list of strings "User: ..." / "Agent: ...". -/
def fallback_response (user_input : String) (hist : List String) : String :=
  if ["hello", "hi", "hey"].any (fun w => strIn w (lowerStr user_input)) then
    helloReply
  else if strIn "how are you" (lowerStr user_input) then
    howReply
  else if ["name", "who are you"].any (fun w => strIn w (lowerStr user_input)) then
    nameReply
  else if ["help", "what can you do"].any (fun w => strIn w (lowerStr user_input)) then
    helpReply
  else if ["thank", "thanks"].any (fun w => strIn w (lowerStr user_input)) then
    thankReply
  else if ["bye", "goodbye", "see you"].any (fun w => strIn w (lowerStr user_input)) then
    byeReply
  else if 0 < hist.length ∧
      (recentUserEntries hist).dedup.length = 1 ∧
      1 < (recentUserEntries hist).length then
    repeatReply
  else if strIn "?" user_input then
    questionReply user_input
  else if 10 < wordCount user_input then
    longReply
  else
    (defaultResponses user_input).getD
      (user_input.length % (defaultResponses user_input).length) ""

/-- Parse one CLI history entry into a Gemini message, as in the loop of
VoiceAgent.generate_response (lines 340-344). -/
def parseEntry (msg : String) : Option Msg :=
  if msg.startsWith "User: " then some ⟨"user", [msg.drop 6]⟩
  else if msg.startsWith "Agent: " then some ⟨"model", [msg.drop 7]⟩
  else none

/-- The chat history handed to `start_chat` (the parsed last
MAX_HISTORY_LENGTH entries; `history[:-1]` drops exactly the freshly
appended current user message). -/
def chatHistory (hist : List String) : List Msg :=
  (lastN Config.MAX_HISTORY_LENGTH hist).filterMap parseEntry

/-- VoiceAgent.generate_response (voice_agent.py lines 323-377); returns the
response and the updated `self.conversation_history`.  `hasModel` models
`self.gemini_model` being set; `remote` models `chat.send_message` on the
chat history and the user input. -/
def generate_response (hasModel : Bool) (remote : List Msg → String → Except Unit String)
    (user_input : String) (hist : List String) : String × List String :=
  if hasModel then
    match remote (chatHistory hist) user_input with
    | Except.error _ => (fallback_response user_input hist, hist)
    | Except.ok t =>
      let ai := pyStrip t
      let h1 := hist ++ ["User: " ++ user_input, "Agent: " ++ ai]
      (ai, if Config.MAX_HISTORY_LENGTH * 2 < h1.length
           then lastN (Config.MAX_HISTORY_LENGTH * 2) h1 else h1)
  else (fallback_response user_input hist, hist)

/-- Outcome of one TTS attempt inside VoiceAgent.speak_with_murf: a requests
timeout, another requests exception, a JSON body without 'audioFile', an
unexpected exception before the audio file is written, an unexpected
exception after the file is written and registered, or full success. -/
inductive TtsOutcome where
  | timeout
  | reqError
  | noAudioField
  | errBefore
  | errAfterWrite
  | ok
  deriving DecidableEq

/-- The file-related state of the agent: files on disk and the
`audio_files_to_cleanup` list. -/
structure AgentFiles where
  fs : List String
  cleanup : List String
  deriving DecidableEq

/-- Result of speak_with_murf: the returned bool, the final file state, the
number of HTTP attempts made, and the total seconds slept between retries. -/
structure SpeakResult where
  ok : Bool
  st : AgentFiles
  attempts : Nat
  sleptSecs : Nat
  deriving DecidableEq

/-- Creating the audio file on disk (`open(audio_file, 'wb')`). -/
def touch (fs : List String) (f : String) : List String :=
  if f ∈ fs then fs else fs ++ [f]

/-- The `finally` block of speak_with_murf: if the file exists, remove it
from disk and (if present) from the cleanup list. -/
def finallyCleanup (st : AgentFiles) (f : String) : AgentFiles :=
  if f ∈ st.fs then
    { fs := st.fs.erase f,
      cleanup := if f ∈ st.cleanup then st.cleanup.erase f else st.cleanup }
  else st

/-- One attempt of speak_with_murf with outcome `o` writing file `f`:
`none` means a retryable failure (timeout or request exception, both of
which happen before any file is written); `some` is a final result. -/
def attemptResult (o : TtsOutcome) (f : String) (st : AgentFiles) : Option SpeakResult :=
  match o with
  | TtsOutcome.timeout => none
  | TtsOutcome.reqError => none
  | TtsOutcome.noAudioField => some ⟨false, st, 1, 0⟩
  | TtsOutcome.errBefore => some ⟨false, st, 1, 0⟩
  | TtsOutcome.errAfterWrite =>
    some ⟨false, finallyCleanup ⟨touch st.fs f, st.cleanup ++ [f]⟩ f, 1, 0⟩
  | TtsOutcome.ok =>
    some ⟨true, finallyCleanup ⟨touch st.fs f, st.cleanup ++ [f]⟩ f, 1, 0⟩

/-- The retry recursion of speak_with_murf, indexed by the number of retries
still allowed (`MAX_RETRIES - retry_count`) and the attempt index `k`; on a
retryable failure with retries left it sleeps RETRY_DELAY and recurses. -/
def speakFrom (out : Nat → TtsOutcome) (fname : Nat → String) :
    Nat → Nat → AgentFiles → SpeakResult
  | 0, k, st =>
    match attemptResult (out k) (fname k) st with
    | some res => res
    | none => ⟨false, st, 1, 0⟩
  | r + 1, k, st =>
    match attemptResult (out k) (fname k) st with
    | some res => res
    | none =>
      let res := speakFrom out fname r (k + 1) st
      ⟨res.ok, res.st, res.attempts + 1, res.sleptSecs + Config.RETRY_DELAY⟩

/-- VoiceAgent.speak_with_murf (voice_agent.py lines 114-214) called with
`retry_count = 0`; `out k` is the outcome of the k-th attempt and `fname k`
its timestamped audio file name. -/
def speak_with_murf (out : Nat → TtsOutcome) (fname : Nat → String)
    (st : AgentFiles) : SpeakResult :=
  speakFrom out fname Config.MAX_RETRIES 0 st

/-- The `exit_words` list of VoiceAgent.run (line 537). -/
def exit_words : List String :=
  ["goodbye", "bye", "exit", "quit", "stop"]

/-- The exit test `any(word in user_input.lower() for word in exit_words)`. -/
def isExitInput (user_input : String) : Bool :=
  exit_words.any (fun w => strIn w (lowerStr user_input))

/-- The farewell spoken on an exit word (line 539). -/
def farewellMsg : String :=
  "Goodbye! It was nice talking to you. Thank you for using Murf Falcon!"

/-- The farewell spoken on KeyboardInterrupt (line 555). -/
def interruptMsg : String :=
  "Goodbye! Conversation interrupted."

/-- One turn of the environment for the conversation loop: an acquired user
input (voice or text, possibly empty) or a KeyboardInterrupt. -/
inductive LoopStep where
  | acquired (s : String)
  | interrupt
  deriving DecidableEq

/-- Observable events of the conversation loop. -/
inductive Event where
  | listened (s : String)
  | generated (user_input response : String)
  | spoke (text : String)
  deriving DecidableEq

/-- Trace of the `while self.is_running` loop of VoiceAgent.run
(voice_agent.py lines 522-563): listen, check exit words, generate, speak,
repeat; `gen` threads the response-generation state. -/
def loopTrace {σ : Type} (gen : σ → String → String × σ) :
    σ → List LoopStep → List Event
  | _, [] => []
  | _, LoopStep.interrupt :: _ => [Event.spoke interruptMsg]
  | st, LoopStep.acquired s :: rest =>
    if s = "" then Event.listened s :: loopTrace gen st rest
    else if isExitInput s then [Event.listened s, Event.spoke farewellMsg]
    else if (gen st s).1 = "" then
      Event.listened s :: Event.generated s (gen st s).1 :: loopTrace gen (gen st s).2 rest
    else
      Event.listened s :: Event.generated s (gen st s).1 ::
        Event.spoke (gen st s).1 :: loopTrace gen (gen st s).2 rest

/-- Well-ordered loop traces: every iteration is listen, then (unless the
input was empty or an exit word) generate, then (if the response is
non-empty) speak; exit words and interrupts end the trace. -/
inductive LoopOrdered : List Event → Prop where
  | nil : LoopOrdered []
  | interrupted : LoopOrdered [Event.spoke interruptMsg]
  | emptyInput (rest : List Event) : LoopOrdered rest →
      LoopOrdered (Event.listened "" :: rest)
  | exited (s : String) : isExitInput s = true →
      LoopOrdered [Event.listened s, Event.spoke farewellMsg]
  | replied (s r : String) (rest : List Event) : s ≠ "" → isExitInput s = false →
      r ≠ "" → LoopOrdered rest →
      LoopOrdered (Event.listened s :: Event.generated s r :: Event.spoke r :: rest)
  | genEmpty (s r : String) (rest : List Event) : s ≠ "" → isExitInput s = false →
      r = "" → LoopOrdered rest →
      LoopOrdered (Event.listened s :: Event.generated s r :: rest)

end Agent

/-- Family of inputs `'?'` followed by n copies of `'z'`, used to show the
fallback responder has infinitely many possible outputs. -/
def qInput (n : Nat) : String :=
  ⟨'?' :: List.replicate n 'z'⟩

namespace App

/-- Every string VoiceAgentAPI._fallback_response can return: the six static
keyword replies, the repeated-question reply, the question/long-input
templates, and the five default templates (the last seven interpolate or
depend on the input). -/
def fallbackOutcomes (user_input : String) : List String :=
  [helloReply, howReply, nameReply, helpReply, thankReply, byeReply,
   repeatReply, questionReply user_input, longReply] ++ defaultResponses user_input

end App

namespace Agent

/-- Every string VoiceAgent._fallback_response can return. -/
def fallbackOutcomes (user_input : String) : List String :=
  [helloReply, howReply, nameReply, helpReply, thankReply, byeReply,
   repeatReply, questionReply user_input, longReply] ++ defaultResponses user_input

end Agent

/-! Helper lemmas about the string and list models. -/

/-- The last `n` elements are at most `n` elements. -/
theorem lastN_length_le {α : Type} (n : Nat) (l : List α) : (lastN n l).length ≤ n := by
  unfold lastN
  rw [List.length_drop]
  omega

/-- Taking the last `n` twice is the same as taking them once. -/
theorem lastN_idem {α : Type} (n : Nat) (l : List α) : lastN n (lastN n l) = lastN n l := by
  unfold lastN
  rw [List.length_drop]
  have h : l.length - (l.length - n) - n = 0 := by omega
  rw [h, List.drop_zero]

/-- A getD at an in-range index is a member of the list. -/
theorem getD_mem_of_lt {α : Type} (l : List α) (n : Nat) (d : α) (h : n < l.length) :
    l.getD n d ∈ l := by
  induction l generalizing n with
  | nil => simp at h
  | cons a t ih =>
    cases n with
    | zero => simp
    | succ m =>
      simp only [List.getD_cons_succ]
      exact List.mem_cons_of_mem _ (ih m (by simpa using h))

/-- String length of a concatenation. -/
theorem strLength_append (a b : String) : (a ++ b).length = a.length + b.length := by
  cases a with
  | mk la =>
    cases b with
    | mk lb =>
      show (la ++ lb).length = la.length + lb.length
      exact List.length_append la lb

/-- Erasing a fresh element appended at the back restores the list. -/
theorem erase_append_fresh {α : Type} [DecidableEq α] (a : α) (l : List α) (h : a ∉ l) :
    (l ++ [a]).erase a = l := by
  induction l with
  | nil => simp
  | cons b t ih =>
    simp only [List.mem_cons, not_or] at h
    obtain ⟨h1, h2⟩ := h
    have hba : (b == a) = false := by
      simp only [beq_eq_false_iff_ne]
      exact fun e => h1 e.symm
    simp only [List.cons_append, List.erase_cons, hba]
    rw [ih h2]
    simp


/-- The conversation context string only depends on the last six history messages. -/
theorem conversationContext_local (hist : List Msg) :
    App.conversationContext (lastN 6 hist) = App.conversationContext hist := by
  unfold App.conversationContext
  by_cases h : 0 < hist.length
  · have h6 : 0 < (lastN 6 hist).length := by
      unfold lastN
      rw [List.length_drop]
      omega
    rw [if_pos h6, if_pos h, lastN_idem]
  · have h0 : hist = [] := List.length_eq_zero.mp (by omega)
    subst h0
    rfl

/-- C6: for every user input and history, the prompt the Flask server sends
to the completion endpoint is built from at most the last 6 history
messages, and the chat history the CLI agent hands to Gemini is built from
at most the last MAX_HISTORY_LENGTH = 10 entries — never the full history. -/
theorem c6_context_window (user_input : String) (hist : List Msg) (histA : List String) :
    App.full_prompt user_input hist = App.full_prompt user_input (lastN 6 hist) ∧
    (lastN 6 hist).length ≤ 6 ∧
    Agent.chatHistory histA = Agent.chatHistory (lastN Config.MAX_HISTORY_LENGTH histA) ∧
    (Agent.chatHistory histA).length ≤ Config.MAX_HISTORY_LENGTH := by
  refine ⟨?_, lastN_length_le 6 hist, ?_, ?_⟩
  · unfold App.full_prompt
    rw [conversationContext_local]
  · unfold Agent.chatHistory
    rw [lastN_idem]
  · unfold Agent.chatHistory
    calc ((lastN Config.MAX_HISTORY_LENGTH histA).filterMap Agent.parseEntry).length
        ≤ (lastN Config.MAX_HISTORY_LENGTH histA).length := List.length_filterMap_le _ _
      _ ≤ Config.MAX_HISTORY_LENGTH := lastN_length_le _ _

/-- C7: the fallback responder of both the Flask server and the CLI agent is
a pure function of the user input and the conversation history: two calls
with equal arguments return the identical string. -/
theorem c7_fallback_deterministic (i1 i2 : String) (h1 h2 : List Msg) (g1 g2 : List String)
    (hi : i1 = i2) (hh : h1 = h2) (hg : g1 = g2) :
    App.fallback_response i1 h1 = App.fallback_response i2 h2 ∧
    Agent.fallback_response i1 g1 = Agent.fallback_response i2 g2 := by
  subst hi; subst hh; subst hg
  exact ⟨rfl, rfl⟩

/-- Witness for c7_fallback_deterministic at a concrete input. -/
theorem c7_witness :
    App.fallback_response "hello" [] = App.fallback_response "hello" [] ∧
    Agent.fallback_response "hello" [] = Agent.fallback_response "hello" [] :=
  c7_fallback_deterministic "hello" "hello" [] [] [] [] rfl rfl rfl

/-- C9: a request (REST or WebSocket) whose message is missing, empty, or
whitespace-only after stripping is answered with the error outcome (HTTP 400
for the REST endpoint) and leaves the conversations state unchanged: no
session entry is created and no turn is appended. -/
theorem c9_empty_message (hasClient : Bool) (remote : String → Except Unit String)
    (message sessionId : Option String) (convs : List (String × List Msg))
    (h : pyStrip (message.getD "") = "") :
    App.send_message hasClient remote message sessionId convs =
      (App.SendOutcome.badRequest "No message provided" 400, convs) ∧
    App.handle_message hasClient remote message sessionId convs =
      (App.WsOutcome.errorMsg "No message provided", convs) := by
  constructor
  · unfold App.send_message
    rw [if_pos h]
  · unfold App.handle_message
    rw [if_pos h]

/-- Witness for c9_empty_message with a whitespace-only message. -/
theorem c9_witness :
    App.send_message false (fun _ => Except.error ()) (some "   ") none [] =
      (App.SendOutcome.badRequest "No message provided" 400, []) ∧
    App.handle_message false (fun _ => Except.error ()) (some "   ") none [] =
      (App.WsOutcome.errorMsg "No message provided", []) :=
  c9_empty_message false (fun _ => Except.error ()) (some "   ") none [] (by decide)

/-- C10: any input whose lowercase form contains an exit word as a substring
makes the loop speak the farewell and terminate, without generating a
response for that input. -/
theorem c10_exit_substring {σ : Type} (gen : σ → String → String × σ) (st : σ)
    (s : String) (rest : List Agent.LoopStep) (h : Agent.isExitInput s = true) :
    Agent.loopTrace gen st (Agent.LoopStep.acquired s :: rest) =
      [Agent.Event.listened s, Agent.Event.spoke Agent.farewellMsg] := by
  have hs : ¬ s = "" := by
    intro he
    subst he
    exact absurd h (by decide)
  unfold Agent.loopTrace
  rw [if_neg hs]
  simp [h]

/-- Witness for c10_exit_substring at the input "nonstop". -/
theorem c10_witness :
    Agent.loopTrace (fun (u : Unit) _ => ("ok", u)) () [Agent.LoopStep.acquired "nonstop"] =
      [Agent.Event.listened "nonstop", Agent.Event.spoke Agent.farewellMsg] :=
  c10_exit_substring (fun (u : Unit) _ => ("ok", u)) () "nonstop" [] (by decide)

/-- C8: every trace of the conversation loop is well ordered: each iteration
listens first, generates a response only after input was acquired, speaks
only after its response was generated, and the loop repeats until an exit
word or an interrupt ends it. -/
theorem c8_loop_order {σ : Type} (gen : σ → String → String × σ) (st : σ)
    (steps : List Agent.LoopStep) :
    Agent.LoopOrdered (Agent.loopTrace gen st steps) := by
  induction steps generalizing st with
  | nil => exact Agent.LoopOrdered.nil
  | cons step rest ih =>
    cases step with
    | interrupt => exact Agent.LoopOrdered.interrupted
    | acquired s =>
      by_cases hs : s = ""
      · subst hs
        simp only [Agent.loopTrace, if_pos rfl]
        exact Agent.LoopOrdered.emptyInput _ (ih st)
      · by_cases hex : Agent.isExitInput s = true
        · rw [c10_exit_substring gen st s rest hex]
          exact Agent.LoopOrdered.exited s hex
        · have hex2 : Agent.isExitInput s = false := by
            revert hex
            cases Agent.isExitInput s <;> simp
          by_cases hr : (gen st s).1 = ""
          · simp only [Agent.loopTrace, if_neg hs, hex2, Bool.false_eq_true, if_false, if_pos hr]
            exact Agent.LoopOrdered.genEmpty s _ _ hs hex2 hr (ih (gen st s).2)
          · simp only [Agent.loopTrace, if_neg hs, hex2, Bool.false_eq_true, if_false, if_neg hr]
            exact Agent.LoopOrdered.replied s _ _ hs hex2 hr (ih (gen st s).2)

/-- C3 counterexample: with a credential configured and a remote call that
succeeds with the short text "hi", the Flask server returns the fallback
answer rather than the remote text, so the fallback is not returned exactly
when the credential is absent or the call raises. -/
theorem c3_counterexample :
    App.generate_response true (fun _ => Except.ok "hi") "zzz" [] =
      App.fallback_response "zzz" [] ∧
    App.fallback_response "zzz" [] ≠ "hi" := by
  exact ⟨rfl, by decide⟩

/-- C3 amended: generate_response returns the fallback answer exactly when
no credential is configured, the remote call raises, or (Flask server only)
the remote call succeeds with a trivial text (stripped empty or shorter than
five characters); otherwise the stripped remote text is returned, and the
CLI agent returns the stripped remote text on every success. -/
theorem c3_generate_dispatch (remote : String → Except Unit String)
    (remoteA : List Msg → String → Except Unit String)
    (user_input t : String) (hist : List Msg) (histA : List String) :
    (App.generate_response false remote user_input hist =
      App.fallback_response user_input hist) ∧
    (remote (App.full_prompt user_input hist) = Except.error () →
      App.generate_response true remote user_input hist =
        App.fallback_response user_input hist) ∧
    (remote (App.full_prompt user_input hist) = Except.ok t →
      ¬(pyStrip t = "" ∨ (pyStrip t).length < 5) →
      App.generate_response true remote user_input hist = pyStrip t) ∧
    (remote (App.full_prompt user_input hist) = Except.ok t →
      (pyStrip t = "" ∨ (pyStrip t).length < 5) →
      App.generate_response true remote user_input hist =
        App.fallback_response user_input hist) ∧
    ((Agent.generate_response false remoteA user_input histA).1 =
      Agent.fallback_response user_input histA) ∧
    (remoteA (Agent.chatHistory histA) user_input = Except.error () →
      (Agent.generate_response true remoteA user_input histA).1 =
        Agent.fallback_response user_input histA) ∧
    (remoteA (Agent.chatHistory histA) user_input = Except.ok t →
      (Agent.generate_response true remoteA user_input histA).1 = pyStrip t) := by
  refine ⟨rfl, ?_, ?_, ?_, rfl, ?_, ?_⟩
  · intro h
    simp [App.generate_response, h]
  · intro h hnt
    simp [App.generate_response, h, hnt]
  · intro h ht
    simp [App.generate_response, h, ht]
  · intro h
    simp [Agent.generate_response, h]
  · intro h
    simp [Agent.generate_response, h]

/-- Witness for c3_generate_dispatch: a non-trivial success is returned by
the Flask server, a raised call falls back, and the CLI agent returns even a
trivial stripped success. -/
theorem c3_witness :
    App.generate_response true (fun _ => Except.ok " hello there ") "zzz" [] =
      pyStrip " hello there " ∧
    App.generate_response true (fun _ => Except.error ()) "zzz" [] =
      App.fallback_response "zzz" [] ∧
    (Agent.generate_response true (fun _ _ => Except.ok " ok ") "zzz" []).1 =
      pyStrip " ok " :=
  ⟨(c3_generate_dispatch (fun _ => Except.ok " hello there ") (fun _ _ => Except.error ())
      "zzz" " hello there " [] []).2.2.1 rfl (by decide),
   (c3_generate_dispatch (fun _ => Except.error ()) (fun _ _ => Except.error ())
      "zzz" "x" [] []).2.1 rfl,
   (c3_generate_dispatch (fun _ => Except.error ()) (fun _ _ => Except.ok " ok ")
      "zzz" " ok " [] []).2.2.2.2.2.2 rfl⟩

/-- Looking up a session right after storing it returns the stored history. -/
theorem getConv_setConv (convs : List (String × List Msg)) (sid : String) (v : List Msg) :
    App.getConv (App.setConv convs sid v) sid = some v := by
  induction convs with
  | nil => simp [App.getConv, App.setConv]
  | cons p rest ih =>
    obtain ⟨k, w⟩ := p
    by_cases h : k = sid
    · simp [App.getConv, App.setConv, h]
    · simp [App.getConv, App.setConv, h, ih]

/-- C1 counterexample: with no LLM credential the CLI agent handles the
message "hello" successfully (a non-empty response is produced) yet neither
turn is appended to the conversation history, which remains empty. -/
theorem c1_counterexample :
    (Agent.generate_response false (fun _ _ => Except.error ()) "hello" []).1 ≠ "" ∧
    (Agent.generate_response false (fun _ _ => Except.error ()) "hello" []).2 = [] :=
  ⟨by decide, rfl⟩

/-- C1 amended: the Flask server appends both turns to the session-keyed
history on every non-empty message but never truncates it (the stored
history is exactly the old history plus the two new turns); the CLI agent
appends both turns and truncates to the last 2 * MAX_HISTORY_LENGTH = 20
entries only when the Gemini call succeeds, and leaves the history unchanged
when no credential is configured or the call raises. -/
theorem c1_history_update (hasClient : Bool) (remote : String → Except Unit String)
    (remoteA : List Msg → String → Except Unit String)
    (message sessionId : Option String) (convs : List (String × List Msg))
    (user_input t : String) (histA : List String)
    (hmsg : ¬ pyStrip (message.getD "") = "") :
    (App.getConv (App.send_message hasClient remote message sessionId convs).2
        (sessionId.getD "default") =
      some ((App.getConv convs (sessionId.getD "default")).getD [] ++
        [⟨"user", [pyStrip (message.getD "")]⟩,
         ⟨"model", [App.generate_response hasClient remote (pyStrip (message.getD ""))
            ((App.getConv convs (sessionId.getD "default")).getD [] ++
              [⟨"user", [pyStrip (message.getD "")]⟩])]⟩])) ∧
    (remoteA (Agent.chatHistory histA) user_input = Except.ok t →
      (Agent.generate_response true remoteA user_input histA).2 =
        (if Config.MAX_HISTORY_LENGTH * 2 <
            (histA ++ ["User: " ++ user_input, "Agent: " ++ pyStrip t]).length
         then lastN (Config.MAX_HISTORY_LENGTH * 2)
            (histA ++ ["User: " ++ user_input, "Agent: " ++ pyStrip t])
         else histA ++ ["User: " ++ user_input, "Agent: " ++ pyStrip t]) ∧
      (Agent.generate_response true remoteA user_input histA).2.length ≤
        Config.MAX_HISTORY_LENGTH * 2) ∧
    ((Agent.generate_response false remoteA user_input histA).2 = histA) ∧
    (remoteA (Agent.chatHistory histA) user_input = Except.error () →
      (Agent.generate_response true remoteA user_input histA).2 = histA) := by
  refine ⟨?_, ?_, rfl, ?_⟩
  · unfold App.send_message
    rw [if_neg hmsg]
    simp only [getConv_setConv, List.append_assoc, List.cons_append, List.nil_append]
  · intro h
    constructor
    · simp [Agent.generate_response, h]
    · simp only [Agent.generate_response, if_true, h]
      split
      · exact lastN_length_le _ _
      · rename_i hle
        rw [List.length_append]
        rw [List.length_append] at hle
        simp only [List.length_cons, List.length_nil] at hle ⊢
        omega
  · intro h
    simp [Agent.generate_response, h]

/-- Witness for c1_history_update at a concrete non-empty message. -/
theorem c1_witness :
    App.getConv (App.send_message false (fun _ => Except.error ()) (some "hello") none []).2
        ((none : Option String).getD "default") =
      some ((App.getConv [] ((none : Option String).getD "default")).getD [] ++
        [⟨"user", [pyStrip ((some "hello" : Option String).getD "")]⟩,
         ⟨"model", [App.generate_response false (fun _ => Except.error ())
            (pyStrip ((some "hello" : Option String).getD ""))
            ((App.getConv [] ((none : Option String).getD "default")).getD [] ++
              [⟨"user", [pyStrip ((some "hello" : Option String).getD "")]⟩])]⟩]) :=
  (c1_history_update false (fun _ => Except.error ()) (fun _ _ => Except.ok "x")
    (some "hello") none [] "x" "x" [] (by decide)).1

/-- The finally block restores the state when the written file was fresh. -/
theorem finallyCleanup_fresh (st : Agent.AgentFiles) (f : String)
    (hfs : f ∉ st.fs) (hcl : f ∉ st.cleanup) :
    Agent.finallyCleanup ⟨Agent.touch st.fs f, st.cleanup ++ [f]⟩ f = st := by
  unfold Agent.finallyCleanup Agent.touch
  simp only [if_neg hfs]
  rw [if_pos (by simp : f ∈ st.fs ++ [f])]
  rw [if_pos (by simp : f ∈ st.cleanup ++ [f])]
  rw [erase_append_fresh f st.fs hfs, erase_append_fresh f st.cleanup hcl]

/-- A completed TTS attempt with a fresh file name leaves the file state
unchanged: the downloaded file is deleted and removed from the cleanup list. -/
theorem attemptResult_st (o : Agent.TtsOutcome) (f : String) (st : Agent.AgentFiles)
    (res : Agent.SpeakResult) (hfs : f ∉ st.fs) (hcl : f ∉ st.cleanup)
    (h : Agent.attemptResult o f st = some res) : res.st = st := by
  cases o <;> simp only [Agent.attemptResult, Option.some.injEq] at h
  · exact absurd h (by simp)
  · exact absurd h (by simp)
  · rw [← h]
  · rw [← h]
  · rw [← h]
    exact finallyCleanup_fresh st f hfs hcl
  · rw [← h]
    exact finallyCleanup_fresh st f hfs hcl

/-- A completed TTS attempt counts as one attempt with no sleeping. -/
theorem attemptResult_counts (o : Agent.TtsOutcome) (f : String) (st : Agent.AgentFiles)
    (res : Agent.SpeakResult) (h : Agent.attemptResult o f st = some res) :
    res.attempts = 1 ∧ res.sleptSecs = 0 := by
  cases o <;> simp only [Agent.attemptResult, Option.some.injEq] at h
  · exact absurd h (by simp)
  · exact absurd h (by simp)
  · rw [← h]; exact ⟨rfl, rfl⟩
  · rw [← h]; exact ⟨rfl, rfl⟩
  · rw [← h]; exact ⟨rfl, rfl⟩
  · rw [← h]; exact ⟨rfl, rfl⟩

/-- Timeouts and request exceptions are the retryable outcomes. -/
theorem attemptResult_retryable (o : Agent.TtsOutcome) (f : String) (st : Agent.AgentFiles)
    (h : o = Agent.TtsOutcome.timeout ∨ o = Agent.TtsOutcome.reqError) :
    Agent.attemptResult o f st = none := by
  rcases h with h | h <;> subst h <;> rfl

/-- The retry recursion never changes the file state when all written file
names are fresh. -/
theorem speakFrom_preserves (out : Nat → Agent.TtsOutcome) (fname : Nat → String)
    (st : Agent.AgentFiles) (hfs : ∀ k, fname k ∉ st.fs) (hcl : ∀ k, fname k ∉ st.cleanup) :
    ∀ r k, (Agent.speakFrom out fname r k st).st = st := by
  intro r
  induction r with
  | zero =>
    intro k
    unfold Agent.speakFrom
    cases h : Agent.attemptResult (out k) (fname k) st with
    | some res => exact attemptResult_st _ _ _ _ (hfs k) (hcl k) h
    | none => rfl
  | succ r ih =>
    intro k
    unfold Agent.speakFrom
    cases h : Agent.attemptResult (out k) (fname k) st with
    | some res => exact attemptResult_st _ _ _ _ (hfs k) (hcl k) h
    | none => exact ih (k + 1)

/-- The retry recursion makes at most one more attempt than it has retries. -/
theorem speakFrom_attempts_le (out : Nat → Agent.TtsOutcome) (fname : Nat → String) :
    ∀ r k (st : Agent.AgentFiles), (Agent.speakFrom out fname r k st).attempts ≤ r + 1 := by
  intro r
  induction r with
  | zero =>
    intro k st
    unfold Agent.speakFrom
    cases h : Agent.attemptResult (out k) (fname k) st with
    | some res => exact le_of_eq (attemptResult_counts _ _ _ _ h).1
    | none => exact Nat.le_refl 1
  | succ r ih =>
    intro k st
    unfold Agent.speakFrom
    cases h : Agent.attemptResult (out k) (fname k) st with
    | some res =>
      show res.attempts ≤ r + 1 + 1
      have := (attemptResult_counts _ _ _ _ h).1
      omega
    | none =>
      show (Agent.speakFrom out fname r (k + 1) st).attempts + 1 ≤ r + 1 + 1
      have := ih (k + 1) st
      omega

/-- When every attempt times out or raises a request exception, the call
returns False after exactly r + 1 attempts with r sleeps in between. -/
theorem speakFrom_allfail (out : Nat → Agent.TtsOutcome) (fname : Nat → String)
    (h : ∀ k, out k = Agent.TtsOutcome.timeout ∨ out k = Agent.TtsOutcome.reqError) :
    ∀ r k (st : Agent.AgentFiles),
      Agent.speakFrom out fname r k st = ⟨false, st, r + 1, r * Config.RETRY_DELAY⟩ := by
  intro r
  induction r with
  | zero =>
    intro k st
    unfold Agent.speakFrom
    rw [attemptResult_retryable _ _ _ (h k)]
    simp
  | succ r ih =>
    intro k st
    unfold Agent.speakFrom
    rw [attemptResult_retryable _ _ _ (h k)]
    show (let res := Agent.speakFrom out fname r (k + 1) st;
      ({ ok := res.ok, st := res.st, attempts := res.attempts + 1,
         sleptSecs := res.sleptSecs + Config.RETRY_DELAY } : Agent.SpeakResult)) = _
    rw [ih (k + 1) st]
    show ({ ok := false, st := st, attempts := r + 1 + 1,
            sleptSecs := r * Config.RETRY_DELAY + Config.RETRY_DELAY } : Agent.SpeakResult) = _
    rw [Nat.succ_mul]

/-- C4: after speak_with_murf returns — success or any failure — the
temporary downloaded audio file no longer exists on disk and is no longer in
the audio_files_to_cleanup list; the whole file state is exactly as before
the call (file names are the fresh timestamped ones). -/
theorem c4_speak_cleanup (out : Nat → Agent.TtsOutcome) (fname : Nat → String)
    (st : Agent.AgentFiles) (hfs : ∀ k, fname k ∉ st.fs) (hcl : ∀ k, fname k ∉ st.cleanup) :
    (Agent.speak_with_murf out fname st).st = st ∧
    ∀ k, fname k ∉ (Agent.speak_with_murf out fname st).st.fs ∧
         fname k ∉ (Agent.speak_with_murf out fname st).st.cleanup := by
  have h : (Agent.speak_with_murf out fname st).st = st :=
    speakFrom_preserves out fname st hfs hcl Config.MAX_RETRIES 0
  refine ⟨h, fun k => ?_⟩
  rw [h]
  exact ⟨hfs k, hcl k⟩

/-- Witness for c4_speak_cleanup: a successful call on an empty state leaves
no file and an empty cleanup list. -/
theorem c4_witness :
    (Agent.speak_with_murf (fun _ => Agent.TtsOutcome.ok)
      (fun _ => "output_20240101_000000.mp3") ⟨[], []⟩).st = ⟨[], []⟩ :=
  (c4_speak_cleanup (fun _ => Agent.TtsOutcome.ok) (fun _ => "output_20240101_000000.mp3")
    ⟨[], []⟩ (fun _ => List.not_mem_nil _) (fun _ => List.not_mem_nil _)).1

/-- C5: when every attempt times out or raises a request exception,
speak_with_murf returns False after exactly MAX_RETRIES + 1 = 4 attempts,
having slept MAX_RETRIES * RETRY_DELAY seconds in between; and on any
outcome sequence at all it makes at most MAX_RETRIES + 1 attempts. -/
theorem c5_retry_bound (out : Nat → Agent.TtsOutcome) (fname : Nat → String)
    (st : Agent.AgentFiles)
    (h : ∀ k, out k = Agent.TtsOutcome.timeout ∨ out k = Agent.TtsOutcome.reqError) :
    (Agent.speak_with_murf out fname st).ok = false ∧
    (Agent.speak_with_murf out fname st).attempts = Config.MAX_RETRIES + 1 ∧
    (Agent.speak_with_murf out fname st).sleptSecs =
      Config.MAX_RETRIES * Config.RETRY_DELAY ∧
    ∀ (out2 : Nat → Agent.TtsOutcome) (fname2 : Nat → String) (st2 : Agent.AgentFiles),
      (Agent.speak_with_murf out2 fname2 st2).attempts ≤ Config.MAX_RETRIES + 1 := by
  have he : Agent.speak_with_murf out fname st =
      ⟨false, st, Config.MAX_RETRIES + 1, Config.MAX_RETRIES * Config.RETRY_DELAY⟩ :=
    speakFrom_allfail out fname h Config.MAX_RETRIES 0 st
  exact ⟨by rw [he], by rw [he], by rw [he],
    fun out2 fname2 st2 => speakFrom_attempts_le out2 fname2 Config.MAX_RETRIES 0 st2⟩

/-- Witness for c5_retry_bound: an all-timeout run fails after 4 attempts. -/
theorem c5_witness :
    (Agent.speak_with_murf (fun _ => Agent.TtsOutcome.timeout) (fun _ => "o.mp3")
      ⟨[], []⟩).ok = false ∧
    (Agent.speak_with_murf (fun _ => Agent.TtsOutcome.timeout) (fun _ => "o.mp3")
      ⟨[], []⟩).attempts = Config.MAX_RETRIES + 1 :=
  ⟨(c5_retry_bound (fun _ => Agent.TtsOutcome.timeout) (fun _ => "o.mp3") ⟨[], []⟩
      (fun _ => Or.inl rfl)).1,
   (c5_retry_bound (fun _ => Agent.TtsOutcome.timeout) (fun _ => "o.mp3") ⟨[], []⟩
      (fun _ => Or.inl rfl)).2.1⟩

/-- C2 amended: every string the fallback responder (Flask or CLI) returns
is drawn from a fixed list of nine replies plus the five default templates,
but seven of those entries interpolate or depend on the user input text, so
the output set is not independent of the input. -/
theorem c2_amended_outcomes (user_input : String) (hist : List Msg) (histA : List String) :
    App.fallback_response user_input hist ∈ App.fallbackOutcomes user_input ∧
    Agent.fallback_response user_input histA ∈ Agent.fallbackOutcomes user_input := by
  have h5 : (defaultResponses user_input).length = 5 := rfl
  constructor
  · unfold App.fallback_response App.fallbackOutcomes
    repeat' split
    all_goals
      first
      | exact List.mem_append_right _
          (getD_mem_of_lt _ _ _ (by rw [h5]; exact Nat.mod_lt _ (by omega)))
      | simp
  · unfold Agent.fallback_response Agent.fallbackOutcomes
    repeat' split
    all_goals
      first
      | exact List.mem_append_right _
          (getD_mem_of_lt _ _ _ (by rw [h5]; exact Nat.mod_lt _ (by omega)))
      | simp

/-- If a non-empty needle occurs in a haystack, its head character does. -/
theorem listHasSub_head_mem (c : Char) (cs hay : List Char)
    (h : listHasSub (c :: cs) hay = true) : c ∈ hay := by
  induction hay with
  | nil => simp [listHasSub, listHasPre] at h
  | cons d ds ih =>
    simp only [listHasSub, Bool.or_eq_true] at h
    rcases h with h | h
    · simp only [listHasPre, Bool.and_eq_true, beq_iff_eq] at h
      rw [h.1]
      exact List.mem_cons_self d ds
    · exact List.mem_cons_of_mem _ (ih h)

/-- A needle whose head character is absent from the haystack cannot occur. -/
theorem listHasSub_false_of_head_notMem (c : Char) (cs hay : List Char) (h : c ∉ hay) :
    listHasSub (c :: cs) hay = false := by
  cases he : listHasSub (c :: cs) hay
  · rfl
  · exact absurd (listHasSub_head_mem c cs hay he) h

/-- Characters other than the question mark and z are absent from qInput. -/
theorem char_notMem_qData (c : Char) (n : Nat) (h1 : c ≠ '?') (h2 : c ≠ 'z') :
    c ∉ ('?' :: List.replicate n 'z') := by
  intro hm
  rcases List.mem_cons.mp hm with h | h
  · exact h1 h
  · exact h2 (List.eq_of_mem_replicate h)

/-- Lowercasing leaves the qInput family unchanged. -/
theorem lowerStr_qInput (n : Nat) : (lowerStr (qInput n)).data = '?' :: List.replicate n 'z' := by
  show ('?' :: List.replicate n 'z').map Char.toLower = '?' :: List.replicate n 'z'
  rw [List.map_cons, List.map_replicate]
  rfl

/-- On every qInput the Flask fallback responder takes the question branch,
returning the question template with the input interpolated. -/
theorem fallback_qInput (n : Nat) :
    App.fallback_response (qInput n) [] = questionReply (qInput n) := by
  have hf : ∀ (c : Char) (cs : List Char), c ≠ '?' → c ≠ 'z' →
      listHasSub (c :: cs) (lowerStr (qInput n)).data = false := by
    intro c cs h1 h2
    rw [lowerStr_qInput]
    exact listHasSub_false_of_head_notMem c cs _ (char_notMem_qData c n h1 h2)
  have k1 : strIn "hello" (lowerStr (qInput n)) = false :=
    hf 'h' ['e', 'l', 'l', 'o'] (by decide) (by decide)
  have k2 : strIn "hi" (lowerStr (qInput n)) = false :=
    hf 'h' ['i'] (by decide) (by decide)
  have k3 : strIn "hey" (lowerStr (qInput n)) = false :=
    hf 'h' ['e', 'y'] (by decide) (by decide)
  have k4 : strIn "how are you" (lowerStr (qInput n)) = false :=
    hf 'h' ['o', 'w', ' ', 'a', 'r', 'e', ' ', 'y', 'o', 'u'] (by decide) (by decide)
  have k5 : strIn "name" (lowerStr (qInput n)) = false :=
    hf 'n' ['a', 'm', 'e'] (by decide) (by decide)
  have k6 : strIn "who are you" (lowerStr (qInput n)) = false :=
    hf 'w' ['h', 'o', ' ', 'a', 'r', 'e', ' ', 'y', 'o', 'u'] (by decide) (by decide)
  have k7 : strIn "help" (lowerStr (qInput n)) = false :=
    hf 'h' ['e', 'l', 'p'] (by decide) (by decide)
  have k8 : strIn "what can you do" (lowerStr (qInput n)) = false :=
    hf 'w' ['h', 'a', 't', ' ', 'c', 'a', 'n', ' ', 'y', 'o', 'u', ' ', 'd', 'o'] (by decide) (by decide)
  have k9 : strIn "thank" (lowerStr (qInput n)) = false :=
    hf 't' ['h', 'a', 'n', 'k'] (by decide) (by decide)
  have k10 : strIn "thanks" (lowerStr (qInput n)) = false :=
    hf 't' ['h', 'a', 'n', 'k', 's'] (by decide) (by decide)
  have k11 : strIn "bye" (lowerStr (qInput n)) = false :=
    hf 'b' ['y', 'e'] (by decide) (by decide)
  have k12 : strIn "goodbye" (lowerStr (qInput n)) = false :=
    hf 'g' ['o', 'o', 'd', 'b', 'y', 'e'] (by decide) (by decide)
  have k13 : strIn "see you" (lowerStr (qInput n)) = false :=
    hf 's' ['e', 'e', ' ', 'y', 'o', 'u'] (by decide) (by decide)
  have kq : strIn "?" (qInput n) = true := by
    show listHasSub ['?'] ('?' :: List.replicate n 'z') = true
    simp [listHasSub, listHasPre]
  unfold App.fallback_response
  simp [k1, k2, k3, k4, k5, k6, k7, k8, k9, k10, k11, k12, k13, kq]

/-- Length of the qInput family. -/
theorem qInput_length (n : Nat) : (qInput n).length = n + 1 := by
  show ('?' :: List.replicate n 'z').length = n + 1
  simp

/-- The fallback response on qInput n has length growing linearly in n. -/
theorem fallback_qInput_length (n : Nat) :
    (App.fallback_response (qInput n) []).length =
      ("That\x27s a great question about \x27" : String).length + (n + 1) +
      ("\x27. While I\x27m still learning, I\x27d love to hear your thoughts on it!" : String).length := by
  rw [fallback_qInput]
  unfold questionReply
  rw [strLength_append, strLength_append, qInput_length]

/-- C2 counterexample: the fallback responder's possible outputs do not fit
in any finite set of strings — the responses to the inputs qInput n are
pairwise distinct because each interpolates the input — so the returned
string is not always drawn from a constant set independent of the input. -/
theorem c2_counterexample :
    ¬ ((∃ S : Finset String, ∀ (user_input : String) (hist : List Msg),
          App.fallback_response user_input hist ∈ S) ∧
       (∃ S : Finset String, ∀ (user_input : String) (histA : List String),
          Agent.fallback_response user_input histA ∈ S)) := by
  rintro ⟨⟨S, hS⟩, -⟩
  have hinj : Function.Injective (fun n : ℕ => App.fallback_response (qInput n) []) := by
    intro a b hab
    replace hab : App.fallback_response (qInput a) [] = App.fallback_response (qInput b) [] := hab
    have h := congrArg String.length hab
    rw [fallback_qInput_length, fallback_qInput_length] at h
    omega
  have hmem : ∀ n : ℕ, (fun n : ℕ => App.fallback_response (qInput n) []) n ∈ (↑S : Set String) :=
    fun n => hS (qInput n) []
  exact Set.infinite_of_injective_forall_mem hinj hmem S.finite_toSet
